import Mathlib

/-!
Verification of the OBO dashboard pipeline (src/util/dashboard_config.py and
src/util/dashboard/fp_003.py) against its natural-language specification.

The per-ontology pipeline `prepare_ontologies` is embedded as a pure function
over an explicit world state: the files it touches (raw download, derived base
file, metrics artifact, per-ontology results file), the remote mirror, and the
behaviour of the external toolchain invocation are all inputs.  Times are
integers counting hours (the code works with hours derived from mtimes).
External helpers imported from the repository's lib module
(get_base_prefixes, compute_percentage_reused_entities, round_float) are kept
abstract as fields of a `Lib` record, since only their functional behaviour at
the interface matters here.
-/

set_option autoImplicit false

namespace OboDash

/-- Whether the first list is an initial segment of the second (character
lists; structural recursion so that concrete runs reduce inside the
kernel). -/
def strLeads : List Char → List Char → Bool
  | [], _ => true
  | _ :: _, [] => false
  | c :: cs, d :: ds => c = d && strLeads cs ds

/-- Whether the pattern occurs somewhere in the list. -/
def strHas (pat : List Char) : List Char → Bool
  | [] => strLeads pat []
  | c :: rest => strLeads pat (c :: rest) || strHas pat rest

/-- Substring test: models the Python in operator on strings. -/
def containsSub (s pat : String) : Bool :=
  strHas pat.data s.data

/-- Models str.startswith. -/
def strStarts (s p : String) : Bool :=
  strLeads p.data s.data

/-- ASCII lower-casing of one character, as Python str.lower does on the
ASCII IRIs this code handles. -/
def lowerChar (c : Char) : Char :=
  if 'A' ≤ c && c ≤ 'Z' then Char.ofNat (c.toNat + 32) else c

/-- Models str.lower (ASCII range). -/
def strLower (s : String) : String :=
  ⟨s.data.map lowerChar⟩

/-- The shared in-memory reuse-tracking dictionary ontology_use:
maps a used prefix string to the (append-only) list of base prefixes of the
ontologies that use it.  Insertion order of keys is preserved, as in a
Python dict. -/
abbrev UseMap := List (String × List String)

def useLookup (use : UseMap) (k : String) : Option (List String) :=
  match use with
  | [] => none
  | (k', v) :: rest => if k' = k then some v else useLookup rest k

/-- Models lines 254-256: `if used_prefix not in ontology_use:
ontology_use[used_prefix] = []` followed by
`ontology_use[used_prefix].append(base_prefix)`. -/
def useAdd (use : UseMap) (k v : String) : UseMap :=
  match useLookup use k with
  | some _ => use.map (fun p => if p.1 = k then (p.1, p.2 ++ [v]) else p)
  | none => use ++ [(k, [v])]

/-- Models the nested loop at lines 252-256: for each base_prefix of the
current ontology and each key of its namespace-axiom-usage mapping, append
the base_prefix to the entry of the used prefix. -/
def recordUse (use : UseMap) (bps : List String) (ups : List String) : UseMap :=
  bps.foldl (fun u bp => ups.foldl (fun u2 up => useAdd u2 up bp) u) use

/-- The metrics artifact written by the external toolchain
(the inner mapping under the top-level key of the {o}-metrics.yml file),
with the schema consumed at lines 224-250. -/
structure MetricsData where
  consistent : Bool
  unsatisfiableClassCount : Int
  axiomCountIncl : Int
  classCountIncl : Int
  objPropertyCountIncl : Int
  namespaceEntityCountIncl : List (String × Int)
  namespaceAxiomCountIncl : List (String × Int)
  individualCountIncl : Int
  datapropertyCountIncl : Int
  annotationPropertyCountIncl : Int
  axiomTypeCountIncl : List (String × Int)
  classExpressionCountIncl : List (String × Int)
  owl2dl : Bool
  syntaxStr : String
  curieMap : List (String × String)
deriving DecidableEq, Repr

/-- The metrics block of a result record, built at lines 226-250 as a dict
keyed by fixed human-readable labels; here one field per label:
consistency          = Info: Logical consistency
unsatisfiableClasses = Entities: Number of unsatisfiable classes
axiomCount           = Axioms: Number of axioms
classCount           = Entities: Number of classes
objPropertyCount     = Entities: Number of object properties
pctReused            = Entities: % of entities reused
nsAxiomUsage         = Info: Usage of namespaces in axioms
individualCount      = Entities: Number of individuals
dataPropertyCount    = Entities: Number of data properties
annPropertyCount     = Entities: Number of annotation properties
axiomTypes           = Axioms: Breakdown of axiom types
classExpressions     = Info: Breakdown of OWL class expressions used
owl2dl               = Info: Does the ontology fall under OWL 2 DL?
syntaxStr            = Info: Syntax
reuseCountInfo       = Info: How many ontologies use it? (absent until the
                       aggregation pass writes it, line 311)
oboScore             = Info: Experimental OBO score, the pair of the private
                       keys (_impact, _reuse) written at lines 312-315. -/
structure RecMetrics where
  consistency : Bool
  unsatisfiableClasses : Int
  axiomCount : Int
  classCount : Int
  objPropertyCount : Int
  pctReused : ℚ
  nsAxiomUsage : List (String × Int)
  individualCount : Int
  dataPropertyCount : Int
  annPropertyCount : Int
  axiomTypes : List (String × Int)
  classExpressions : List (String × Int)
  owl2dl : Bool
  syntaxStr : String
  reuseCountInfo : Option Int
  oboScore : Option (ℚ × ℚ)
deriving DecidableEq, Repr

/-- An ontology result record (the dashboard.yml file contents), modelling
key presence explicitly: an Option field is none when the key is absent from
the dict.  sha256Hash is doubly optional because the code can store the
Python value None under the key (line 184), which is distinct from the key
being absent (line 156).  resultsField models presence of the key named
results, which this code only reads (line 321) and never writes. -/
structure Record where
  ns : Option String
  sha256Hash : Option (Option Nat)
  changed : Option Bool
  baseGenerated : Option Bool
  mirrorFrom : Option String
  basePrefixes : Option (List String)
  metrics : Option RecMetrics
  failure : Option String
  resultsField : Bool
deriving DecidableEq, Repr

def emptyRecord : Record :=
  { ns := none, sha256Hash := none, changed := none, baseGenerated := none,
    mirrorFrom := none, basePrefixes := none, metrics := none, failure := none,
    resultsField := false }

/-- A registry entry for one ontology: optional fields model the KeyError
paths at lines 122-139. -/
structure Entry where
  mirror_from : Option String
  base_ns : Option (List String)
deriving DecidableEq, Repr

/-- The run configuration values consumed by prepare_ontologies. -/
structure Config where
  redownloadAfterHours : Int
  forceRegenerateAfterHours : Int
  skipExisting : Bool
deriving DecidableEq, Repr

/-- The raw downloaded file {o}-raw.owl: its content hash, its lines, and its
modification time (in hours on the same clock as World.now). -/
structure RawFile where
  hash : Nat
  lines : List String
  mtime : Int
deriving DecidableEq, Repr

/-- Behaviour of the external toolchain call robot_prepare_ontology for this
ontology: it either raises, or succeeds; on success the base file is written
and the metrics file ends in the given state (none = no metrics file on disk,
some none = a file that fails to load, some (some m) = a parsed artifact). -/
inductive RobotBehavior where
  | raises
  | succeeds (metricsOut : Option (Option MetricsData))
deriving DecidableEq, Repr

/-- The world of one ontology's pipeline run: the clock, the relevant files,
the remote mirror content (none = network failure on download), the
toolchain behaviour, and whether the dashboard make invocation succeeds.
resultsFile: none = no dashboard.yml; some none = a file that fails to load
(corrupted); some (some r) = a loadable record. -/
structure World where
  now : Int
  baseFileMtime : Option Int
  rawFile : Option RawFile
  metricsFile : Option (Option MetricsData)
  resultsFile : Option (Option Record)
  remote : Option (Nat × List String)
  robot : RobotBehavior
  dashOk : Bool
deriving DecidableEq, Repr

/-- The external helper functions imported from lib, kept abstract:
get_base_prefixes (curie map, base namespaces), the
percentage-of-reused-entities computation, and round_float. -/
structure Lib where
  get_base_prefixes : List (String × String) → List String → List String
  compute_percentage_reused_entities : List (String × Int) → List String → ℚ
  round_float : ℚ → ℚ

def saveRec (w : World) (r : Record) : World :=
  { w with resultsFile := some (some r) }

/-- Result of one per-ontology pass of the first loop of prepare_ontologies:
the updated world, the updated reuse map, whether robot_prepare_ontology was
invoked, whether a download was attempted (urlretrieve called), the failure
tag assigned this run (none when no failure path was taken), the final
in-memory record (none when the ontology was skipped by skip-existing), and
whether it was so skipped. -/
structure StepOut where
  world : World
  use : UseMap
  robotInvoked : Bool
  downloaded : Bool
  failTag : Option String
  record : Option Record
  skipped : Bool
deriving DecidableEq, Repr

/-- Builds the outcome of a failure path: set the failure tag, save the
record, stop this ontology's pipeline (the save_yaml + continue idiom). -/
def failOut (w : World) (use : UseMap) (r : Record) (tag : String)
    (robotInv dl : Bool) : StepOut :=
  let r' := { r with failure := some tag }
  { world := saveRec w r', use := use, robotInvoked := robotInv,
    downloaded := dl, failTag := some tag, record := some r', skipped := false }

/-- The verification at lines 198-203 fails when the raw file cannot be
opened, has fewer than 10 lines, or one of its first 10 lines contains the
ListBucketResult marker. -/
def verifyFails (rf : Option RawFile) : Bool :=
  match rf with
  | none => true
  | some f =>
      f.lines.length < 10 ||
      (f.lines.take 10).any (fun l => containsSub l "ListBucketResult")

/-- The sanity gate of lines 271-288: missing metrics key raises (caught as
missing_metrics); otherwise an axiom count below 1 is empty_ontology, then a
false consistency flag is inconsistent_ontology. -/
def sanityGate (r : Record) : Record :=
  match r.metrics with
  | none => { r with failure := some "missing_metrics" }
  | some m =>
      if m.axiomCount < 1 then { r with failure := some "empty_ontology" }
      else if m.consistency = false then
        { r with failure := some "inconsistent_ontology" }
      else r

/-- The regeneration block, lines 194-267: verify the downloaded file, invoke
the external toolchain, load and flatten the metrics artifact, and append to
the reuse map.  Returns an early-exit StepOut on the failure paths, or the
state handed on to the sanity gate. -/
def regenBlockCore (lib : Lib) (baseNamespaces : List String) (r : Record)
    (w : World) (use : UseMap) (dl : Bool) :
    StepOut ⊕ (Record × World × UseMap × Bool) :=
  if verifyFails w.rawFile then
    .inl (failOut w use r "not_an_ontology" false dl)
  else
    match w.robot with
    | .raises => .inl (failOut w use r "failed_robot_base" true dl)
    | .succeeds mOut =>
        let w' := { w with baseFileMtime := some w.now, metricsFile := mOut }
        match mOut with
        | none => .inl (failOut w' use r "missing_metrics_file" true dl)
        | some none => .inl (failOut w' use r "broken_metrics_file" true dl)
        | some (some md) =>
            let bps := lib.get_base_prefixes md.curieMap baseNamespaces
            let recM : RecMetrics :=
              { consistency := md.consistent,
                unsatisfiableClasses := md.unsatisfiableClassCount,
                axiomCount := md.axiomCountIncl,
                classCount := md.classCountIncl,
                objPropertyCount := md.objPropertyCountIncl,
                pctReused := lib.compute_percentage_reused_entities
                  md.namespaceEntityCountIncl bps,
                nsAxiomUsage := md.namespaceAxiomCountIncl,
                individualCount := md.individualCountIncl,
                dataPropertyCount := md.datapropertyCountIncl,
                annPropertyCount := md.annotationPropertyCountIncl,
                axiomTypes := md.axiomTypeCountIncl,
                classExpressions := md.classExpressionCountIncl,
                owl2dl := md.owl2dl,
                syntaxStr := md.syntaxStr,
                reuseCountInfo := none,
                oboScore := none }
            let r' := { r with basePrefixes := some bps, metrics := some recM }
            let use' := recordUse use bps (md.namespaceAxiomCountIncl.map Prod.fst)
            .inr (r', w', use', true)

/-- The download decision of lines 113-119: skip the download when the
{o}.owl file (the derived base file) is fresh. -/
def downloadNeeded (cfg : Config) (w : World) : Bool :=
  match w.baseFileMtime with
  | none => true
  | some t => if w.now - t < cfg.redownloadAfterHours then false else true

/-- Lines 192-290: the conditional regeneration block followed by the sanity
gate and the final save.  r2 is the record as saved at line 189 (its changed
field holds the change flag read back at line 192), w2 the world after that
save. -/
def genAndGate (lib : Lib) (baseNamespaces : List String) (r2 : Record)
    (w2 : World) (use : UseMap) (download : Bool) : StepOut :=
  match (if r2.changed = some true || w2.metricsFile = none
            || w2.baseFileMtime = none then
           regenBlockCore lib baseNamespaces r2 w2 use download
         else .inr (r2, w2, use, false)) with
  | .inl out => out
  | .inr (r3, w3, use3, rob) =>
    -- lines 271-290: the sanity gate and the final save
    let rG := sanityGate r3
    { world := saveRec w3 rG, use := use3, robotInvoked := rob,
      downloaded := download, failTag := rG.failure, record := some rG,
      skipped := false }

/-- Lines 153-290: from the hashing step onwards.  w1 is the world after the
download step; download tells whether a download happened this run. -/
def afterDownload (lib : Lib) (cfg : Config) (r : Record) (ourl : String)
    (makeBase : Bool) (baseNamespaces : List String) (download : Bool)
    (w1 : World) (use : UseMap) : StepOut :=
  -- lines 153-163: hash the downloaded file when needed
  match (if download || r.sha256Hash = none then
           match w1.rawFile with
           | none => none
           | some f => some (some f.hash)
         else some (none : Option Nat)) with
  | none => failOut w1 use r "failed_sha256_hash" false download
  | some shaOpt =>
    -- lines 165-179: the change flag
    let changedFalse : Bool :=
      match r.sha256Hash, shaOpt with
      | some stored, some s =>
          stored = some s &&
          (match w1.rawFile with
           | some f => decide (w1.now - f.mtime < cfg.forceRegenerateAfterHours)
           | none => false)
      | _, _ => false
    let changed := !changedFalse
    -- lines 181-189: clear the stale failure tag, update the record, save
    let r2 : Record :=
      { r with
        changed := some changed, failure := none,
        sha256Hash := some shaOpt, baseGenerated := some makeBase,
        mirrorFrom := some ourl }
    genAndGate lib baseNamespaces r2 (saveRec w1 r2) use download

/-- The body of the first loop of prepare_ontologies for one ontology, from
line 109 (after results-file handling) to line 290. -/
def runBody (lib : Lib) (cfg : Config) (o : String) (e : Entry) (w : World)
    (use : UseMap) (r0 : Record) : StepOut :=
  let r := { r0 with ns := some o }
  let download := downloadNeeded cfg w
  -- lines 121-130: resolve the mirror URL
  match e.mirror_from with
  | none => failOut w use r "missing_url" false false
  | some ourl =>
    let makeBase := !containsSub ourl (o ++ "-base.")
    -- lines 132-139: resolve the base namespaces
    match e.base_ns with
    | none => failOut w use r "missing_base_namespaces" false false
    | some baseNamespaces =>
      -- lines 141-151: download
      if download then
        match w.remote with
        | none => failOut w use r "failed_download" false true
        | some (h, ls) =>
            afterDownload lib cfg r ourl makeBase baseNamespaces true
              { w with rawFile := some { hash := h, lines := ls, mtime := w.now } } use
      else afterDownload lib cfg r ourl makeBase baseNamespaces false w use

/-- One per-ontology pass of the first loop of prepare_ontologies
(lines 81-290): results-file handling (skip-existing, corrupted file), then
the body. -/
def runOntology (lib : Lib) (cfg : Config) (o : String) (e : Entry)
    (w : World) (use : UseMap) : StepOut :=
  match w.resultsFile with
  | none => runBody lib cfg o e w use emptyRecord
  | some loaded =>
    if cfg.skipExisting then
      { world := w, use := use, robotInvoked := false, downloaded := false,
        failTag := none, record := none, skipped := true }
    else
      match loaded with
      | none =>
          let r := { emptyRecord with failure := some "corrupted_results_file" }
          { world := saveRec w r, use := use, robotInvoked := false,
            downloaded := false, failTag := some "corrupted_results_file",
            record := some r, skipped := false }
      | some r0 => runBody lib cfg o e w use r0

/-- The deduplicated use list of the aggregation pass, lines 304-309:
concatenate the reuse-map entries of the record's base prefixes (absent
entries contribute nothing) and deduplicate. -/
def reuseUses (use : UseMap) (bps : List String) : List String :=
  (bps.foldl (fun acc bp => acc ++ ((useLookup use bp).getD [])) []).dedup

/-- The per-record score computation of the aggregation pass, lines 303-315:
records without a metrics key are left untouched; otherwise the reuse count
and the experimental score pair are written into the metrics block. -/
def aggregateRecord (lib : Lib) (use : UseMap) (total : Nat) (r : Record) :
    Record :=
  match r.metrics with
  | none => r
  | some m =>
      let usesD := reuseUses use (r.basePrefixes.getD [])
      let impact := lib.round_float ((usesD.length : ℚ) / (total : ℚ))
      let reuse := lib.round_float (m.pctReused / 100)
      let m' := { m with
                  reuseCountInfo := some (usesD.length : Int),
                  oboScore := some (impact, reuse) }
      { r with metrics := some m' }

/-- Outcome of the aggregation pass for one ontology. -/
structure AggOut where
  world : World
  record : Option Record
  dashInvoked : Bool
deriving DecidableEq, Repr

/-- The second loop of prepare_ontologies (lines 294-334) for one ontology:
load the saved record, compute and persist the scores when a metrics block is
present, and invoke the dashboard build when the record changed (or was never
rendered) and carries no failure.  A resultsFile of some none would make the
unguarded yaml.load at line 302 raise; after a non-skipped first pass the
file is always loadable, so that state is mapped to a no-op here.  Likewise
line 321 reads the changed key without a guard; every record the first pass
persists with a metrics block also carries the changed key, so the
condition is modelled as the changed field being some true. -/
def aggregatePass (lib : Lib) (cfg : Config) (use : UseMap) (total : Nat)
    (w : World) : AggOut :=
  match w.resultsFile with
  | none => { world := w, record := none, dashInvoked := false }
  | some loaded =>
    if cfg.skipExisting then { world := w, record := none, dashInvoked := false }
    else
      match loaded with
      | none => { world := w, record := none, dashInvoked := false }
      | some r =>
        match r.metrics with
        | none => { world := w, record := some r, dashInvoked := false }
        | some _ =>
          let r' := aggregateRecord lib use total r
          let w' := saveRec w r'
          if (r'.changed = some true || r'.resultsField = false)
              && r'.failure = none then
            if w.dashOk then { world := w', record := some r', dashInvoked := true }
            else
              let r'' := { r' with failure := some "failed_ontology_dashboard" }
              { world := saveRec w' r'', record := some r'', dashInvoked := true }
          else { world := w', record := some r', dashInvoked := false }

/-- Outcome of a full prepare_ontologies run over a one-ontology registry. -/
structure RunOut where
  world : World
  use : UseMap
  robotInvoked : Bool
  downloaded : Bool
  record : Option Record
deriving DecidableEq, Repr

/-- A full prepare_ontologies run for a registry holding a single ontology:
the per-ontology pass followed by the aggregation pass (total = 1). -/
def fullRun (lib : Lib) (cfg : Config) (o : String) (e : Entry) (w : World) :
    RunOut :=
  let s := runOntology lib cfg o e w []
  let a := aggregatePass lib cfg s.use 1 s.world
  { world := a.world, use := s.use, robotInvoked := s.robotInvoked,
    downloaded := s.downloaded,
    record := match a.record with | some r => some r | none => s.record }

/-- The metrics block of the record loaded at the start of a run (none when
there is no loadable prior record). -/
def priorMetrics (w : World) : Option RecMetrics :=
  match w.resultsFile with
  | some (some r) => r.metrics
  | _ => none

/-!
Embedding of the FP3 URI compliance check, src/util/dashboard/fp_003.py.
Run-time exceptions (in particular the AttributeError raised by the
misspelled attribute lookup at line 172) are modelled with Except.
-/

/-- The status/comment dictionary returned by the checks. -/
structure CheckOutcome where
  status : String
  comment : Option String
deriving DecidableEq, Repr

/-- save_invalid_uris, fp_003.py lines 180-210 (the report-file write is
I/O with no bearing on the returned value and is not modelled): build the
returned status/comment from the error and warning lists. -/
def save_invalid_uris (ns : String) (error warn : List String) : CheckOutcome :=
  if error.length > 0 && warn.length > 0 then
    { status := "ERROR",
      comment := some (toString error.length ++ " invalid IRIs " ++
                       toString warn.length ++ " warnings on IRIs") }
  else if error.length > 0 then
    { status := "ERROR", comment := some (toString error.length ++ " invalid IRIs") }
  else if warn.length > 0 then
    { status := "ERROR", comment := some (toString warn.length ++ " warnings on IRIs") }
  else { status := "PASS", comment := none }

/-- Result values of check_uri: the Python function can return the string
ERROR, the string WARN, or the boolean True. -/
inductive UriCheck where
  | pass
  | errorTag
  | warnTag
deriving DecidableEq, Repr

/-- The ontology IRI compared against at fp_003.py line 167. -/
def oboPurl (ns : String) : String :=
  "http://purl.obolibrary.org/obo/" ++ ns ++ ".owl"

/-- check_uri, fp_003.py lines 156-177.  When the IRI is not the ontology
IRI but starts with the namespace, the code evaluates iri.startwith — a
misspelled attribute whose lookup raises AttributeError at run time before
either the ERROR or the WARN branch can produce a value; that exception is
modelled as Except.error.  The two remaining paths return True (pass). -/
def check_uri (ns iri : String) : Except String UriCheck :=
  if iri = oboPurl ns then .ok .pass
  else if strStarts iri ns then
    .error "AttributeError: str object has no attribute startwith"
  else .ok .pass

/-- An ontology entity as consumed by the has_valid_uris loop: whether it is
an annotation property, whether it is obsolete, and its IRI. -/
structure Entity where
  isAnnProperty : Bool
  isObsolete : Bool
  iri : String
deriving DecidableEq, Repr

/-- The entity loop of has_valid_uris, fp_003.py lines 52-72: skip
annotation properties and obsolete entities, classify every other
lower-cased IRI with check_uri, and accumulate the error and warning lists.
An exception escaping check_uri propagates (there is no try around the
loop). -/
def collect_uris (ns : String) (es : List Entity) (err wrn : List String) :
    Except String (List String × List String) :=
  match es with
  | [] => .ok (err, wrn)
  | e :: rest =>
    if e.isAnnProperty then collect_uris ns rest err wrn
    else if e.isObsolete then collect_uris ns rest err wrn
    else
      match check_uri ns (strLower e.iri) with
      | .error s => .error s
      | .ok c =>
          let err' := if c = UriCheck.errorTag then err ++ [strLower e.iri] else err
          let wrn' := if c = UriCheck.warnTag then wrn ++ [strLower e.iri] else wrn
          collect_uris ns rest err' wrn'

/-- has_valid_uris, fp_003.py lines 25-74: INFO when the ontology could not
be loaded, otherwise run the entity loop and hand the accumulated lists to
save_invalid_uris. -/
def has_valid_uris (ontologyLoaded : Bool) (ns : String) (es : List Entity) :
    Except String CheckOutcome :=
  if !ontologyLoaded then
    .ok { status := "INFO", comment := some "Unable to load ontology" }
  else
    match collect_uris ns es [] [] with
    | .error s => .error s
    | .ok (err, wrn) => .ok (save_invalid_uris ns err wrn)


/-!
Concrete fixtures: registry entries, worlds and records used by the
counterexamples and witnesses below.  The abstract lib helpers are
instantiated with simple concrete functions.
-/

/-- A Lib instance whose rounding helper is constant, so that concrete runs
evaluate inside the kernel (rational normalisation does not reduce there). -/
def exLib : Lib :=
  { get_base_prefixes := fun _ _ => ["EX"],
    compute_percentage_reused_entities := fun _ _ => 10,
    round_float := fun _ => 0 }

def exCfg : Config :=
  { redownloadAfterHours := 24, forceRegenerateAfterHours := 168,
    skipExisting := false }

def exEntry : Entry :=
  { mirror_from := some "http://example.org/ex.owl",
    base_ns := some ["http://example.org/EX_"] }

def exMetrics : MetricsData :=
  { consistent := true, unsatisfiableClassCount := 0, axiomCountIncl := 5,
    classCountIncl := 3, objPropertyCountIncl := 0,
    namespaceEntityCountIncl := [("EX", 3)],
    namespaceAxiomCountIncl := [("EX", 5)],
    individualCountIncl := 0, datapropertyCountIncl := 0,
    annotationPropertyCountIncl := 0,
    axiomTypeCountIncl := [("SubClassOf", 5)],
    classExpressionCountIncl := [], owl2dl := true, syntaxStr := "RDF/XML",
    curieMap := [("EX", "http://example.org/EX_")] }

/-- Ten innocuous lines of ontology content. -/
def exLines : List String :=
  ["<?xml version></xml>", "a", "b", "c", "d", "e", "f", "g", "h", "i"]

/-- A fresh world: nothing on disk yet, a healthy mirror, a healthy
toolchain. -/
def exWorld : World :=
  { now := 0, baseFileMtime := none, rawFile := none, metricsFile := none,
    resultsFile := none, remote := some (42, exLines),
    robot := .succeeds (some (some exMetrics)), dashOk := true }

/-- First full run, from the fresh world. -/
def exRun1 : RunOut := fullRun exLib exCfg "ex" exEntry exWorld

/-- The world one hour after the first run; the remote source is unchanged
and both staleness windows (24 h redownload, 168 h force-regenerate) are
open. -/
def exWorld2 : World := { exRun1.world with now := 1 }

/-- Second full run, one hour after the first. -/
def exRun2 : RunOut := fullRun exLib exCfg "ex" exEntry exWorld2

/-- Thirty hours after the first run the base file is stale (30 >= 24), so a
download is attempted; the mirror is now unreachable. -/
def c3WorldB : World := { exRun1.world with now := 30, remote := none }

def c3OutB : StepOut := runOntology exLib exCfg "ex" exEntry c3WorldB []

/-- A metrics block as a previous successful run would have persisted it. -/
def cxM : RecMetrics :=
  { consistency := true, unsatisfiableClasses := 0, axiomCount := 5,
    classCount := 3, objPropertyCount := 0, pctReused := 10,
    nsAxiomUsage := [("EX", 5)], individualCount := 0, dataPropertyCount := 0,
    annPropertyCount := 0, axiomTypes := [("SubClassOf", 5)],
    classExpressions := [], owl2dl := true, syntaxStr := "RDF/XML",
    reuseCountInfo := none, oboScore := none }

/-- Ten lines containing the ListBucketResult marker. -/
def c4BadLines : List String :=
  ["<Error>", "<ListBucketResult xmlns=>", "c", "d", "e", "f", "g", "h",
   "i", "j"]

/-- Thirty hours after the successful first run the mirror starts serving
the marker page (hash 99): this run downloads it, stores hash 99 at
line 184, and then fails verification. -/
def c4WorldY : World :=
  { exRun1.world with now := 30, remote := some (99, c4BadLines) }

def c4OutY : StepOut := runOntology exLib exCfg "ex" exEntry c4WorldY []

/-- Thirty more hours later the mirror still serves the same marker page:
the base file is stale so the page is downloaded again, but now its hash
equals the stored hash 99 and the raw file is fresh, so the record is
marked unchanged and both derived artifacts (from the first run) exist. -/
def c4WorldZ : World := { c4OutY.world with now := 60 }

def c4Out : StepOut := runOntology exLib exCfg "ex" exEntry c4WorldZ []

/-- A world for the regeneration block with no raw file on disk. -/
def c4wWorld : World := { exWorld with rawFile := none }

/-- A record carrying both a failure tag and a (stale) metrics block, as the
first pass leaves it when a previously successful ontology fails
verification this run. -/
def c2Rec : Record :=
  { ns := some "dep", sha256Hash := some (some 99), changed := some true,
    baseGenerated := some true, mirrorFrom := some "u",
    basePrefixes := some ["EX"], metrics := some cxM,
    failure := some "not_an_ontology", resultsField := false }

/-- Reuse map: prefix EX of the dependency is used by two ontologies. -/
def c2Use : UseMap := [("EX", ["A", "B"])]

/-- Thirty hours after the successful first run the mirror starts serving a
bucket-error page with a different hash, so the run downloads, sees a
changed hash, and fails verification with not_an_ontology while the stale
metrics block stays on the record. -/
def c2WorldB : World :=
  { exRun1.world with now := 30, remote := some (43, c4BadLines) }

def c2OutB : StepOut := runOntology exLib exCfg "ex" exEntry c2WorldB []

/-- The aggregation pass run right after that failing first pass. -/
def c2Agg : AggOut := aggregatePass exLib exCfg c2OutB.use 1 c2OutB.world

/-- The world of the spec sentence for C7: the raw downloaded file exists
and is fresh (age 0), but the derived base file is absent. -/
def c7xWorld : World :=
  { now := 0, baseFileMtime := none,
    rawFile := some { hash := 7, lines := exLines, mtime := 0 },
    metricsFile := none, resultsFile := none, remote := some (7, exLines),
    robot := .succeeds (some (some exMetrics)), dashOk := true }

/-- A world whose base file is one hour old, inside the redownload window. -/
def c7wWorld : World :=
  { now := 1, baseFileMtime := some 0, rawFile := none, metricsFile := none,
    resultsFile := none, remote := some (7, exLines),
    robot := .succeeds (some (some exMetrics)), dashOk := true }

/-- A prior record that failed with failed_download. -/
def c8PrevRec : Record :=
  { ns := some "ex", sha256Hash := some (some 41), changed := some true,
    baseGenerated := some true, mirrorFrom := some "http://example.org/ex.owl",
    basePrefixes := none, metrics := none,
    failure := some "failed_download", resultsField := false }

/-- A world in which the previously failed ontology now downloads, hashes,
verifies and generates successfully. -/
def c8World : World :=
  { now := 0, baseFileMtime := none, rawFile := none, metricsFile := none,
    resultsFile := some (some c8PrevRec), remote := some (42, exLines),
    robot := .succeeds (some (some exMetrics)), dashOk := true }

/-- Lib with the identity as the rounding helper, for the literal score
computation of the C6 spec example. -/
def c6Lib : Lib :=
  { get_base_prefixes := fun _ _ => [],
    compute_percentage_reused_entities := fun _ _ => 0,
    round_float := id }

/-- The spec example reuse map: prefix ex is used by foo and bar. -/
def c6Use : UseMap := [("ex", ["foo", "bar"])]

/-- The record of ontology foo in the spec example, with base prefix ex. -/
def c6Rec : Record :=
  { ns := some "foo", sha256Hash := some (some 1), changed := some true,
    baseGenerated := some true, mirrorFrom := some "u",
    basePrefixes := some ["ex"], metrics := some cxM, failure := none,
    resultsField := false }

/-- Metrics with an axiom count of zero and a true consistency flag. -/
def c5M : RecMetrics := { cxM with axiomCount := 0 }

def c5Rec : Record := { emptyRecord with metrics := some c5M }

/-- The reuse count as the specification words it: the cardinality of the
set union, over the given base prefixes, of the Global Reuse Map entries
for those prefixes (an entry occurring under several prefixes counts
once). -/
def specReuseCount (use : UseMap) (bps : List String) : Nat :=
  (bps.foldr (fun bp s => ((useLookup use bp).getD []).toFinset ∪ s) ∅).card

/-!
Helper lemmas about the pipeline stages, shared by the claim theorems.
-/

theorem sanityGate_failure_cases (r : Record) :
    (sanityGate r).failure = r.failure ∨
    (sanityGate r).failure = some "missing_metrics" ∨
    (sanityGate r).failure = some "empty_ontology" ∨
    (sanityGate r).failure = some "inconsistent_ontology" := by
  unfold sanityGate
  split
  · simp
  · split
    · simp
    · split
      · simp
      · simp

theorem regenBlockCore_inl_shape (lib : Lib) (bns : List String) (r : Record)
    (w : World) (use : UseMap) (dl : Bool) (out : StepOut)
    (h : regenBlockCore lib bns r w use dl = .inl out) :
    out.downloaded = dl ∧ out.skipped = false ∧
    (out.failTag = some "not_an_ontology" ∨
     out.failTag = some "failed_robot_base" ∨
     out.failTag = some "missing_metrics_file" ∨
     out.failTag = some "broken_metrics_file") ∧
    out.record.map (fun x => x.failure) = some out.failTag := by
  unfold regenBlockCore at h
  repeat' split at h
  all_goals try (simp only [Sum.inl.injEq] at h; subst h; simp [failOut])
  all_goals simp_all

theorem regenBlockCore_inr_shape (lib : Lib) (bns : List String) (r : Record)
    (w : World) (use : UseMap) (dl : Bool) (r' : Record) (w' : World)
    (u' : UseMap) (b : Bool)
    (h : regenBlockCore lib bns r w use dl = .inr (r', w', u', b)) :
    r'.failure = r.failure ∧ r'.metrics.isSome = true := by
  unfold regenBlockCore at h
  repeat' split at h
  all_goals try (simp only [Sum.inr.injEq, Prod.mk.injEq] at h
                 obtain ⟨h1, h2, h3, h4⟩ := h
                 subst h1
                 simp)
  all_goals simp_all

theorem genAndGate_shape (lib : Lib) (bns : List String) (r2 : Record)
    (w2 : World) (use : UseMap) (dl : Bool) (hr : r2.failure = none) :
    (genAndGate lib bns r2 w2 use dl).downloaded = dl ∧
    (genAndGate lib bns r2 w2 use dl).skipped = false ∧
    (genAndGate lib bns r2 w2 use dl).failTag ≠ some "failed_download" ∧
    (genAndGate lib bns r2 w2 use dl).record.map (fun x => x.failure) =
      some (genAndGate lib bns r2 w2 use dl).failTag := by
  unfold genAndGate
  split
  case h_1 out hout =>
    split at hout
    · have h1 := regenBlockCore_inl_shape _ _ _ _ _ _ _ hout
      refine ⟨h1.1, h1.2.1, ?_, h1.2.2.2⟩
      rcases h1.2.2.1 with h | h | h | h <;> simp [h]
    · exact absurd hout (by simp)
  case h_2 r3 w3 use3 rob hinr =>
    refine ⟨rfl, rfl, ?_, rfl⟩
    have hfail : r3.failure = none := by
      split at hinr
      · exact (regenBlockCore_inr_shape _ _ _ _ _ _ _ _ _ _ hinr).1.trans hr
      · simp only [Sum.inr.injEq, Prod.mk.injEq] at hinr
        obtain ⟨h1, _, _, _⟩ := hinr
        subst h1
        exact hr
    rcases sanityGate_failure_cases r3 with h | h | h | h <;> simp [h, hfail]

theorem afterDownload_shape (lib : Lib) (cfg : Config) (r : Record)
    (ourl : String) (mb : Bool) (bns : List String) (dl : Bool) (w1 : World)
    (use : UseMap) :
    (afterDownload lib cfg r ourl mb bns dl w1 use).downloaded = dl ∧
    (afterDownload lib cfg r ourl mb bns dl w1 use).skipped = false ∧
    (afterDownload lib cfg r ourl mb bns dl w1 use).failTag ≠
      some "failed_download" ∧
    (afterDownload lib cfg r ourl mb bns dl w1 use).record.map
      (fun x => x.failure) =
      some (afterDownload lib cfg r ourl mb bns dl w1 use).failTag := by
  unfold afterDownload
  split
  · simp [failOut]
  · exact genAndGate_shape _ _ _ _ _ _ rfl

theorem runBody_shape (lib : Lib) (cfg : Config) (o : String) (e : Entry)
    (w : World) (use : UseMap) (r0 : Record) :
    (runBody lib cfg o e w use r0).skipped = false ∧
    (runBody lib cfg o e w use r0).record.map (fun x => x.failure) =
      some (runBody lib cfg o e w use r0).failTag ∧
    ((runBody lib cfg o e w use r0).failTag = some "failed_download" →
      (runBody lib cfg o e w use r0).record.map (fun x => x.metrics) =
        some r0.metrics) := by
  unfold runBody
  split
  · simp [failOut]
  · split
    · simp [failOut]
    · split
      all_goals dsimp only
      all_goals split
      all_goals try (simp [failOut]; done)
      all_goals
        refine ⟨(afterDownload_shape lib cfg _ _ _ _ _ _ use).2.1,
                (afterDownload_shape lib cfg _ _ _ _ _ _ use).2.2.2,
                fun hh => absurd hh (afterDownload_shape lib cfg _ _ _ _ _ _ use).2.2.1⟩

theorem runBody_downloaded_eq (lib : Lib) (cfg : Config) (o : String)
    (e : Entry) (w : World) (use : UseMap) (r0 : Record) (u : String)
    (bns : List String) (hurl : e.mirror_from = some u)
    (hbns : e.base_ns = some bns) :
    (runBody lib cfg o e w use r0).downloaded = downloadNeeded cfg w := by
  unfold runBody
  simp only [hurl, hbns]
  split
  case isTrue h =>
    split
    · simp [failOut, h]
    · rw [(afterDownload_shape lib cfg _ _ _ _ _ _ use).1, h]
  case isFalse h =>
    rw [(afterDownload_shape lib cfg _ _ _ _ _ _ use).1]
    simp_all

theorem runOntology_record_failure (lib : Lib) (cfg : Config) (o : String)
    (e : Entry) (w : World) (use : UseMap) (hskip : cfg.skipExisting = false) :
    (runOntology lib cfg o e w use).record.map (fun x => x.failure) =
      some (runOntology lib cfg o e w use).failTag := by
  unfold runOntology
  split
  · exact (runBody_shape lib cfg o e w use emptyRecord).2.1
  · rw [hskip]
    simp only [Bool.false_eq_true, if_false]
    split
    · simp
    · exact (runBody_shape lib cfg o e w use _).2.1

theorem downloadNeeded_false_iff (cfg : Config) (w : World) :
    downloadNeeded cfg w = false ↔
      ∃ t, w.baseFileMtime = some t ∧
        w.now - t < cfg.redownloadAfterHours := by
  unfold downloadNeeded
  cases hb : w.baseFileMtime with
  | none => simp
  | some t =>
    constructor
    · intro h
      refine ⟨t, rfl, ?_⟩
      by_contra hlt
      simp [if_neg hlt] at h
    · rintro ⟨t2, ht2, hlt⟩
      obtain rfl : t = t2 := by injection ht2
      simp [if_pos hlt]

theorem reuseUses_length_eq_card (use : UseMap) (bps : List String) :
    (reuseUses use bps).length = specReuseCount use bps := by
  unfold specReuseCount
  have key : ∀ init : List String,
      (bps.foldl (fun acc bp => acc ++ ((useLookup use bp).getD []))
        init).toFinset
        = init.toFinset ∪
          bps.foldr (fun bp s => ((useLookup use bp).getD []).toFinset ∪ s)
            ∅ := by
    induction bps with
    | nil => intro init; simp
    | cons b bs ih => intro init; simp [ih, Finset.union_assoc]
  unfold reuseUses
  rw [← List.card_toFinset, key, List.toFinset_nil, Finset.empty_union]

theorem collect_uris_ok_eq (ns : String) (es : List Entity) :
    ∀ err wrn e w, collect_uris ns es err wrn = .ok (e, w) →
      e = err ∧ w = wrn := by
  induction es with
  | nil =>
    intro err wrn e w h
    unfold collect_uris at h
    simp at h
    exact ⟨h.1.symm, h.2.symm⟩
  | cons x rest ih =>
    intro err wrn e w h
    unfold collect_uris at h
    by_cases ha : x.isAnnProperty
    · simp [ha] at h
      exact ih _ _ _ _ h
    · by_cases ho : x.isObsolete
      · simp [ha, ho] at h
        exact ih _ _ _ _ h
      · simp [ha, ho] at h
        revert h
        unfold check_uri
        by_cases h1 : strLower x.iri = oboPurl ns
        · simp [h1]
          intro h
          exact ih _ _ _ _ h
        · by_cases h2 : strStarts (strLower x.iri) ns = true
          · simp [h1, h2]
          · simp [h1, h2]
            intro h
            exact ih _ _ _ _ h

/-!
The claim theorems.
-/

/-- C1: the claim states that a second run inside both staleness windows
with an unchanged remote leaves the record byte-identical and does not
re-invoke the toolchain.  The code violates this: when the download is
skipped the local hash variable stays None (line 156), so the stored-hash
comparison at line 168 never fires, the record stays changed, the toolchain
is re-invoked, and line 184 overwrites the stored hash with None — this
theorem evaluates the embedded pipeline on the two-run scenario and shows
robot_prepare_ontology is invoked again and the record changes. -/
theorem c1_second_run_reinvokes_toolchain :
    exRun1.world.baseFileMtime = some 0 ∧
    exWorld2.now - 0 < exCfg.redownloadAfterHours ∧
    exWorld2.now - 0 < exCfg.forceRegenerateAfterHours ∧
    exWorld2.remote = exWorld.remote ∧
    exRun2.downloaded = false ∧
    exRun2.robotInvoked = true ∧
    exRun1.record.map (fun x => x.sha256Hash) = some (some (some 42)) ∧
    exRun2.record.map (fun x => x.sha256Hash) = some (some none) ∧
    exRun2.record ≠ exRun1.record := by
  exact ⟨by decide, by decide, by decide, by decide, by decide, by decide,
         by decide, by decide, by decide⟩

/-- C2 (counterexample): a pipeline-produced record that starts the
aggregation pass with failure = not_an_ontology (and a stale metrics block)
is not excluded: the aggregation recomputes its reuse count (overwriting
the previous run's value 1 with 0), writes a fresh score pair, and persists
the modified record, contradicting the claim. -/
theorem c2_counterexample :
    c2OutB.failTag = some "not_an_ontology" ∧
    c2OutB.record.map (fun x => x.metrics.map (fun mm => mm.reuseCountInfo)) =
      some (some (some 1)) ∧
    c2Agg.record.map (fun x => x.failure) = some (some "not_an_ontology") ∧
    c2Agg.record.map (fun x => x.metrics.map (fun mm => mm.reuseCountInfo)) =
      some (some (some 0)) ∧
    c2Agg.record.map (fun x => x.metrics.map (fun mm => mm.oboScore.isSome)) =
      some (some true) ∧
    c2Agg.record ≠ c2OutB.record := by
  exact ⟨by decide, by decide, by decide, by decide, by decide, by decide⟩

/-- C2 (amended): the aggregation step is gated on the presence of a
metrics block, not on the absence of failure: a record without metrics is
left untouched, while a record with metrics gets the reuse count and both
scores computed and written even when its failure field is set (the failure
field itself is not modified by the score computation). -/
theorem c2_amended_aggregation_gated_on_metrics (lib : Lib) (use : UseMap)
    (total : Nat) (r : Record) :
    (r.metrics = none → aggregateRecord lib use total r = r) ∧
    (∀ m : RecMetrics, r.metrics = some m →
      (aggregateRecord lib use total r).metrics = some { m with
        reuseCountInfo :=
          some ((reuseUses use (r.basePrefixes.getD [])).length : Int),
        oboScore := some
          (lib.round_float
            (((reuseUses use (r.basePrefixes.getD [])).length : ℚ) /
              (total : ℚ)),
           lib.round_float (m.pctReused / 100)) } ∧
      (aggregateRecord lib use total r).failure = r.failure) := by
  constructor
  · intro h
    unfold aggregateRecord
    rw [h]
  · intro m hm
    unfold aggregateRecord
    rw [hm]
    exact ⟨rfl, rfl⟩

/-- C2 (witness): the amended theorem applied to the concrete failed record
with a metrics block. -/
theorem c2_amended_witness :
    (aggregateRecord exLib c2Use 3 c2Rec).failure = c2Rec.failure :=
  ((c2_amended_aggregation_gated_on_metrics exLib c2Use 3 c2Rec).2 cxM rfl).2

/-- C3 (counterexample): after a fully successful run, a second run whose
download fails leaves a persisted record with failure = failed_download that
still carries the metrics block computed by the earlier run's metrics stage
— a stage later than the download failure. -/
theorem c3_counterexample :
    exRun1.record.map (fun x => x.failure) = some none ∧
    c3OutB.failTag = some "failed_download" ∧
    c3OutB.record.map (fun x => x.failure) = some (some "failed_download") ∧
    c3OutB.record.map (fun x => x.metrics.isSome) = some true ∧
    c3OutB.record.map (fun x => x.metrics) =
      exRun1.record.map (fun x => x.metrics) := by
  exact ⟨by decide, by decide, by decide, by decide, by decide⟩

/-- C3 (amended): within a single run the pipeline never writes a metrics
block after a failed_download failure — a run that ends with that tag leaves
the record's metrics field exactly as loaded from the prior persisted
record (in particular absent when there was no prior record); a stale block
persisted by a previous run is however retained. -/
theorem c3_amended_no_new_metrics_on_failed_download (lib : Lib)
    (cfg : Config) (o : String) (e : Entry) (w : World) (use : UseMap)
    (h : (runOntology lib cfg o e w use).failTag = some "failed_download") :
    (runOntology lib cfg o e w use).record.map (fun x => x.metrics) =
      some (priorMetrics w) := by
  revert h
  unfold runOntology
  split
  case h_1 heq =>
    intro h
    rw [(runBody_shape lib cfg o e w use emptyRecord).2.2 h]
    simp [priorMetrics, heq, emptyRecord]
  case h_2 loaded heq =>
    split
    · intro h
      exact absurd h (by simp)
    · split
      · intro h
        exact absurd h (by simp)
      · intro h
        rw [(runBody_shape lib cfg o e w use _).2.2 h]
        simp [priorMetrics, heq]

/-- C3 (witness): the amended theorem applied to the concrete
failed-download world of the counterexample. -/
theorem c3_amended_witness :
    (runOntology exLib exCfg "ex" exEntry c3WorldB []).record.map
      (fun x => x.metrics) = some (priorMetrics c3WorldB) :=
  c3_amended_no_new_metrics_on_failed_download exLib exCfg "ex" exEntry
    c3WorldB [] (by decide)

/-- C4 (counterexample): in the third run of the chain a file whose first
10 lines contain the ListBucketResult marker is downloaded, yet no
not_an_ontology failure is recorded (the previous run's tag is even
cleared), because the stored hash equals the bad page's hash, the raw file
is fresh, and both derived artifacts exist, so the regeneration block —
which contains the verification — is skipped (the toolchain is indeed not
invoked). -/
theorem c4_counterexample :
    c4OutY.failTag = some "not_an_ontology" ∧
    c4Out.downloaded = true ∧
    c4Out.world.rawFile = some { hash := 99, lines := c4BadLines, mtime := 60 } ∧
    (c4BadLines.take 10).any (fun l => containsSub l "ListBucketResult") =
      true ∧
    c4Out.robotInvoked = false ∧
    c4Out.failTag = none ∧
    c4Out.record.map (fun x => x.failure) = some none := by
  exact ⟨by decide, by decide, by decide, by decide, by decide, by decide,
         by decide⟩

/-- C4 (amended): whenever the regeneration block is entered, a raw file
that is missing, has fewer than 10 lines, or contains the ListBucketResult
marker in its first 10 lines makes the block record
failure = not_an_ontology, persist it, and return without invoking the
external toolchain. -/
theorem c4_amended_verify_gates_regen_block (lib : Lib) (bns : List String)
    (r : Record) (w : World) (use : UseMap) (dl : Bool)
    (hv : verifyFails w.rawFile = true) :
    regenBlockCore lib bns r w use dl =
      .inl (failOut w use r "not_an_ontology" false dl) ∧
    (failOut w use r "not_an_ontology" false dl).robotInvoked = false ∧
    (failOut w use r "not_an_ontology" false dl).failTag =
      some "not_an_ontology" ∧
    (failOut w use r "not_an_ontology" false dl).world.resultsFile =
      some (some { r with failure := some "not_an_ontology" }) := by
  refine ⟨?_, rfl, rfl, rfl⟩
  unfold regenBlockCore
  simp [hv]

/-- C4 (witness): the amended theorem applied to a world with no raw file on
disk. -/
theorem c4_amended_witness :
    regenBlockCore exLib ["b"] emptyRecord c4wWorld [] false =
      .inl (failOut c4wWorld [] emptyRecord "not_an_ontology" false false) :=
  (c4_amended_verify_gates_regen_block exLib ["b"] emptyRecord c4wWorld []
    false (by decide)).1

/-- C5: at the sanity gate of lines 271-288, a metrics block whose axiom
count is below 1 yields failure = empty_ontology regardless of the
consistency flag, and the inconsistent_ontology tag is only ever assigned
when the axiom count is at least 1 (the record reaches the gate with its
failure field cleared). -/
theorem c5_empty_ontology_before_inconsistency (r : Record) (m : RecMetrics)
    (hm : r.metrics = some m) (hf : r.failure = none) :
    (m.axiomCount < 1 → (sanityGate r).failure = some "empty_ontology") ∧
    ((sanityGate r).failure = some "inconsistent_ontology" →
      1 ≤ m.axiomCount ∧ m.consistency = false) := by
  unfold sanityGate
  rw [hm]
  constructor
  · intro h
    simp [h]
  · intro h
    by_cases h1 : m.axiomCount < 1
    · simp [h1] at h
    · by_cases h2 : m.consistency = false
      · exact ⟨by omega, h2⟩
      · simp [h1, h2, hf] at h

/-- C5 (witness): a zero-axiom, consistent metrics block is judged
empty_ontology. -/
theorem c5_witness : (sanityGate c5Rec).failure = some "empty_ontology" :=
  (c5_empty_ontology_before_inconsistency c5Rec c5M rfl rfl).1 (by decide)

/-- C6: the aggregation step writes as reuse count exactly the cardinality
of the set union, over the record's base prefixes, of the Global Reuse Map
entries for those prefixes (entries are the base prefixes of the using
ontologies, deduplicated across the union), and as impact score that count
divided by the number of registered ontologies, passed through the rounding
helper; the reuse score is the reused-entities percentage divided by 100,
rounded the same way. -/
theorem c6_reuse_count_and_impact (lib : Lib) (use : UseMap) (total : Nat)
    (r : Record) (m : RecMetrics) (hm : r.metrics = some m) :
    (aggregateRecord lib use total r).metrics = some { m with
      reuseCountInfo :=
        some ((specReuseCount use (r.basePrefixes.getD []) : Nat) : Int),
      oboScore := some
        (lib.round_float
          (((specReuseCount use (r.basePrefixes.getD []) : Nat) : ℚ) /
            (total : ℚ)),
         lib.round_float (m.pctReused / 100)) } := by
  unfold aggregateRecord
  rw [hm]
  simp [reuseUses_length_eq_card]

/-- C6 (witness): the spec example — reuse map sending ex to the two users
foo and bar, base_prefixes = [ex], 10 registered ontologies — yields reuse
count 2 and impact 2/10. -/
theorem c6_witness :
    (aggregateRecord c6Lib c6Use 10 c6Rec).metrics = some { cxM with
      reuseCountInfo := some 2,
      oboScore := some ((2 : ℚ)/10, (10 : ℚ)/100) } := by
  rw [c6_reuse_count_and_impact c6Lib c6Use 10 c6Rec cxM rfl]
  have h2 : specReuseCount [("ex", ["foo", "bar"])] ["ex"] = 2 := by decide
  norm_num [c6Lib, c6Use, c6Rec, cxM, useLookup, h2]

/-- C7 (counterexample): the previously-downloaded raw file exists and has
age 0 — below the redownload threshold — yet the download is not skipped,
because the code keys the decision on the derived base file, which is
absent here. -/
theorem c7_counterexample :
    c7xWorld.rawFile = some { hash := 7, lines := exLines, mtime := 0 } ∧
    c7xWorld.now - 0 < exCfg.redownloadAfterHours ∧
    c7xWorld.baseFileMtime = none ∧
    (runOntology exLib exCfg "ex" exEntry c7xWorld []).downloaded = true := by
  exact ⟨by decide, by decide, by decide, by decide⟩

/-- C7 (amended): for a run that reaches the download decision (not skipped
by skip-existing, results file loadable, registry entry complete), the
download is skipped exactly when the derived base file {o}.owl exists on
disk and its age is below the configured redownload-after threshold. -/
theorem c7_amended_download_skip_iff_base_file_fresh (lib : Lib)
    (cfg : Config) (o : String) (e : Entry) (w : World) (use : UseMap)
    (u : String) (bns : List String) (hskip : cfg.skipExisting = false)
    (hnc : w.resultsFile ≠ some none) (hurl : e.mirror_from = some u)
    (hbns : e.base_ns = some bns) :
    (runOntology lib cfg o e w use).downloaded = false ↔
      ∃ t, w.baseFileMtime = some t ∧
        w.now - t < cfg.redownloadAfterHours := by
  rw [← downloadNeeded_false_iff cfg w]
  have hd : (runOntology lib cfg o e w use).downloaded =
      downloadNeeded cfg w := by
    unfold runOntology
    split
    · exact runBody_downloaded_eq lib cfg o e w use _ u bns hurl hbns
    case h_2 loaded heq =>
      rw [hskip]
      simp only [Bool.false_eq_true, if_false]
      split
      · exact absurd heq hnc
      · exact runBody_downloaded_eq lib cfg o e w use _ u bns hurl hbns
  rw [hd]

/-- C7 (witness): the amended theorem applied to a world whose base file is
one hour old: the download is skipped. -/
theorem c7_amended_witness :
    (runOntology exLib exCfg "ex" exEntry c7wWorld []).downloaded = false :=
  (c7_amended_download_skip_iff_base_file_fresh exLib exCfg "ex" exEntry
      c7wWorld [] "http://example.org/ex.owl" ["http://example.org/EX_"]
      rfl (by decide) rfl rfl).mpr ⟨0, rfl, by decide⟩

/-- C8: when the prior record failed with failed_download and the current
run assigns no failure tag, the final persisted record's failure key is
absent (the pop at line 183 removes the key and nothing rewrites it). -/
theorem c8_failure_key_absent_after_success (lib : Lib) (cfg : Config)
    (o : String) (e : Entry) (w : World) (use : UseMap) (r0 : Record)
    (hskip : cfg.skipExisting = false)
    (hload : w.resultsFile = some (some r0))
    (hprev : r0.failure = some "failed_download")
    (hnew : (runOntology lib cfg o e w use).failTag = none) :
    (runOntology lib cfg o e w use).record.map (fun x => x.failure) =
      some none := by
  rw [runOntology_record_failure lib cfg o e w use hskip, hnew]

/-- C8 (witness): the concrete previously-failed ontology whose rerun
succeeds ends with the failure key absent. -/
theorem c8_witness :
    (runOntology exLib exCfg "ex" exEntry c8World []).record.map
      (fun x => x.failure) = some none :=
  c8_failure_key_absent_after_success exLib exCfg "ex" exEntry c8World []
    c8PrevRec rfl rfl rfl (by decide)

/-- C9: for every namespace and IRI, when the IRI starts with the namespace
but is not the ontology purl, check_uri raises (the misspelled startwith
attribute lookup of line 172); consequently check_uri never returns ERROR
or WARN, and the error and warning accumulators of the has_valid_uris loop
are still empty in any non-exceptional execution. -/
theorem c9_check_uri_raises (ns iri : String) (es : List Entity) :
    (strStarts iri ns = true → iri ≠ oboPurl ns →
      check_uri ns iri =
        .error "AttributeError: str object has no attribute startwith") ∧
    (∀ c : UriCheck, check_uri ns iri = .ok c → c = .pass) ∧
    (∀ err wrn : List String, collect_uris ns es [] [] = .ok (err, wrn) →
      err = [] ∧ wrn = []) := by
  refine ⟨?_, ?_, ?_⟩
  · intro h1 h2
    unfold check_uri
    rw [if_neg h2, if_pos h1]
  · intro c hc
    unfold check_uri at hc
    split at hc
    · injection hc with h
      exact h.symm
    · split at hc
      · exact absurd hc (by simp)
      · injection hc with h
        exact h.symm
  · intro err wrn h
    exact collect_uris_ok_eq ns es [] [] err wrn h

/-- C9 (witness): a namespace-matching entity IRI makes check_uri raise. -/
theorem c9_witness :
    check_uri "go" "go_0000001" =
      .error "AttributeError: str object has no attribute startwith" :=
  (c9_check_uri_raises "go" "go_0000001" []).1 (by decide) (by decide)

/-- C10: save_invalid_uris never returns status WARN; with no errors and a
non-empty warning list it returns ERROR carrying the warnings-count
message, and it returns PASS exactly when both lists are empty. -/
theorem c10_save_invalid_uris_statuses (ns : String) (e w : List String) :
    (save_invalid_uris ns e w).status ≠ "WARN" ∧
    (e = [] → w ≠ [] → save_invalid_uris ns e w =
      { status := "ERROR",
        comment := some (toString w.length ++ " warnings on IRIs") }) ∧
    ((save_invalid_uris ns e w).status = "PASS" ↔ (e = [] ∧ w = [])) := by
  unfold save_invalid_uris
  refine ⟨?_, ?_, ?_⟩
  · repeat' split <;> simp_all
  · intro he hw
    subst he
    have hl : 0 < w.length := List.length_pos.mpr hw
    simp [hl]
  · constructor
    · intro h
      split at h <;> try split at h
      all_goals try split at h
      all_goals simp_all
    · rintro ⟨he, hw⟩
      subst he
      subst hw
      simp

/-- C10 (witness): two warnings and no errors yield status ERROR. -/
theorem c10_witness :
    (save_invalid_uris "go" [] ["a", "b"]).status = "ERROR" := by
  rw [(c10_save_invalid_uris_statuses "go" [] ["a", "b"]).2.1 rfl (by simp)]

end OboDash
